import Mathlib

/-!
Verification development for the RAG ingestion service (FastAPI + Google Drive +
Supabase repository).  The Python services are shallowly embedded as executable
Lean definitions:

* `app/services/document_analyzer.py` — the legal-structure analyzer, including a
  faithful operational model of the two CPython regex operations it performs
  (`re.split(REGEX_ARTICLE, text)` and `REGEX_ARTICLE.search(s)`, plus
  `REGEX_TITLE_OR_CHAPTER.search` and `re.search(r"\d+", s)`).
* `app/services/ocr_processor.py` — `refine_extracted_content`, with the
  multimodal description call (`describe_visual_element`) as an oracle parameter.
* `app/services/document_loader.py` — `_has_sufficient_native_text`,
  `orchestrate_pre_ocr` and `load_pdf_file`, with the pdfplumber / Tesseract
  extraction primitives as oracle parameters over an abstract page type.
* `app/services/google_drive_manager.py` — `list_files_in_folder`, with the
  Drive `files().list` call modeled as a paginated query over a store of items.
* `app/services/vector_db_manager.py` — `simple_text_splitter`.
* `app/routers/ingestion.py` — `_process_single_file_for_ingestion`, with the
  external stages (download, load, embedding pipeline) as oracles and an explicit
  trace of stage invocations in source order.

Strings are modeled at Unicode-codepoint granularity (`List Char`), restricted to
the ASCII behaviour of Python's `str.strip`, `\s`, `\d`, `str.upper` and
`re.IGNORECASE`; every input appearing in a theorem below is ASCII or plain
Latin-1 text, where this model agrees with CPython.
-/

/-! ## Python string primitives -/

/-- The characters Python's `str.strip()` and `\s` treat as whitespace
(ASCII fragment): space, tab, newline, carriage return, vertical tab, form feed. -/
def pyIsSpace (c : Char) : Bool :=
  c == ' ' || c == '\t' || c == '\n' || c == '\r' || c.val == 11 || c.val == 12

/-- Python `s.strip()` on a codepoint list: drop whitespace from both ends. -/
def stripL (s : List Char) : List Char :=
  ((s.dropWhile pyIsSpace).reverse.dropWhile pyIsSpace).reverse

/-- Python `s.upper()` (ASCII fragment). -/
def pyUpper (s : String) : String :=
  String.mk (s.data.map Char.toUpper)

/-- Python `sep.join(xs)`. -/
def pyJoin (sep : String) (xs : List String) : String :=
  String.mk (List.intercalate sep.data (xs.map String.data))

/-- Lowercasing used for `re.IGNORECASE` on ASCII letters. -/
def lcc (c : Char) : Char := c.toLower

/-! ## Operational model of `REGEX_ARTICLE`

`REGEX_ARTICLE = re.compile(r"^(Art\.|Artigo)\s+\d+\s*(\.\s*)?.*", re.IGNORECASE | re.MULTILINE)`

A match can only start at a line start (`^` with `MULTILINE`).  At such a
position the pattern is deterministic:

* the alternation `(Art\.|Artigo)` — group 1 — is decided by the fourth
  character (`.` versus `i`), so no backtracking across alternatives is needed;
* `\s+` then `\d+`: since whitespace and digits are disjoint, the greedy `\s+`
  is "one whitespace char, then the maximal whitespace run, then the next char
  must be a digit";
* after the first digit the rest of the pattern (`\s*(\.\s*)?.*`) always
  succeeds: maximal whitespace run, then the optional group 2 `(\.\s*)?` is
  taken iff the next char is a literal dot, then `.*` consumes the maximal run
  of non-newline characters.  (`.` does not match `\n`; `\s` does.)
-/

/-- The alternation `(Art\.|Artigo)` under `IGNORECASE`: on success returns
(group-1 text as it appears in the input, rest of the input). -/
def tryLit : List Char → Option (List Char × List Char)
  | a :: r :: t :: rest =>
    if lcc a = 'a' ∧ lcc r = 'r' ∧ lcc t = 't' then
      match rest with
      | '.' :: rest2 => some ([a, r, t, '.'], rest2)
      | i :: g :: o :: rest2 =>
        if lcc i = 'i' ∧ lcc g = 'g' ∧ lcc o = 'o' then
          some ([a, r, t, i, g, o], rest2)
        else none
      | _ => none
    else none
  | _ => none

/-- Attempt to match `REGEX_ARTICLE` at the current position (which must be a
line start).  Returns `(group 1, group 2 — none when the optional group did not
participate, rest of the input after the whole match)`. -/
def tryMatch (s : List Char) : Option (List Char × Option (List Char) × List Char) :=
  match tryLit s with
  | none => none
  | some (g1, s1) =>
    match s1 with
    | [] => none
    | c :: s2 =>
      if pyIsSpace c then
        match s2.dropWhile pyIsSpace with
        | [] => none
        | d :: s4 =>
          if d.isDigit then
            let s5 := s4.dropWhile Char.isDigit
            let s6 := s5.dropWhile pyIsSpace
            let g2rest : Option (List Char) × List Char :=
              match s6 with
              | '.' :: s6' => (some ('.' :: s6'.takeWhile pyIsSpace), s6'.dropWhile pyIsSpace)
              | _ => (none, s6)
            let s8 := g2rest.2.dropWhile (fun ch => ch != '\n')
            some (g1, g2rest.1, s8)
          else none
      else none

/-- Leftmost `REGEX_ARTICLE` match in `s`, scanning position by position.
`ls` says whether the current position is a line start (string start, or the
preceding character was a newline — `^` under `MULTILINE`).  On success returns
`(text before the match, group 1, group 2, text after the match)`. -/
def findSplit : List Char → Bool → Option (List Char × List Char × Option (List Char) × List Char)
  | s, ls =>
    match (if ls then tryMatch s else none) with
    | some (g1, g2, rest) => some ([], g1, g2, rest)
    | none =>
      match s with
      | [] => none
      | c :: cs =>
        match findSplit cs (c == '\n') with
        | some (pre, g1, g2, rest) => some (c :: pre, g1, g2, rest)
        | none => none

/-- `REGEX_ARTICLE.search(s) is not None` (the only use the analyzer makes of
the match object in its guards). -/
def REGEX_ARTICLE_search (s : List Char) : Bool :=
  (findSplit s true).isSome

/-- The token stream of `re.split(REGEX_ARTICLE, s)`.  Python keeps the text of
every capturing group between consecutive pieces, and a group that did not
participate contributes `None` (here `Option.none`).  The matched text itself
is removed.  Scanning resumes at the end of each match; a match always ends
either at the end of the string or immediately before a newline, so the
resumption position is never a line start — hence the recursive call passes
`false`.  `fuel` only bounds the number of matches; every match consumes at
least six characters, so `s.length + 1` is always sufficient and the fuel-zero
fallback is unreachable from `pySplit`. -/
def pySplitAux : Nat → List Char → Bool → List (Option (List Char))
  | 0, s, _ => [some s]
  | fuel + 1, s, ls =>
    match findSplit s ls with
    | none => [some s]
    | some (pre, g1, g2, rest) => some pre :: some g1 :: g2 :: pySplitAux fuel rest false

/-- `re.split(REGEX_ARTICLE, s)`. -/
def pySplit (s : List Char) : List (Option (List Char)) :=
  pySplitAux (s.length + 1) s true

/-! ## Operational model of `REGEX_TITLE_OR_CHAPTER`

`re.compile(r"^\s*(TÍTULO|CAPÍTULO|SEÇÃO)\s+.*?\s*$", re.IGNORECASE | re.MULTILINE)`

At a line start: greedy `\s*` (it may cross newlines), then one of the three
keywords case-insensitively, then `\s+` (at least one whitespace char).  After
that, `.*?\s*$` always succeeds, and with the preceding greedy `\s+` maximal,
the lazy `.*?` together with `\s*$` extends the match to just before the next
newline (or to the end of the string).  `group(0)` is the whole matched text. -/

/-- Case-insensitive keyword match against a list of (lower, upper) pairs;
returns the rest of the input on success. -/
def ciMatchKw : List Char → List (Char × Char) → Option (List Char)
  | s, [] => some s
  | c :: s, (lo, hi) :: ps => if c = lo ∨ c = hi then ciMatchKw s ps else none
  | [], _ :: _ => none

/-- TÍTULO, as (lower, upper) pairs. -/
def kwTitulo : List (Char × Char) :=
  [('t', 'T'), ('í', 'Í'), ('t', 'T'), ('u', 'U'), ('l', 'L'), ('o', 'O')]

/-- CAPÍTULO, as (lower, upper) pairs. -/
def kwCapitulo : List (Char × Char) :=
  [('c', 'C'), ('a', 'A'), ('p', 'P'), ('í', 'Í'), ('t', 'T'), ('u', 'U'), ('l', 'L'), ('o', 'O')]

/-- SEÇÃO, as (lower, upper) pairs. -/
def kwSecao : List (Char × Char) :=
  [('s', 'S'), ('e', 'E'), ('ç', 'Ç'), ('ã', 'Ã'), ('o', 'O')]

/-- Attempt `REGEX_TITLE_OR_CHAPTER` at a line-start position; returns
`group(0)` on success. -/
def tryTitle (s : List Char) : Option (List Char) :=
  let s1 := s.dropWhile pyIsSpace
  let kw :=
    match ciMatchKw s1 kwTitulo with
    | some r => some r
    | none =>
      match ciMatchKw s1 kwCapitulo with
      | some r => some r
      | none => ciMatchKw s1 kwSecao
  match kw with
  | none => none
  | some s2 =>
    match s2 with
    | [] => none
    | c :: s3 =>
      if pyIsSpace c then
        let s4 := s3.dropWhile pyIsSpace
        let s5 := s4.dropWhile (fun ch => ch != '\n')
        some (s.take (s.length - s5.length))
      else none

/-- Scan for the leftmost `REGEX_TITLE_OR_CHAPTER` match (`ls` as in
`findSplit`); returns `group(0)`. -/
def titleSearchAux : List Char → Bool → Option (List Char)
  | s, ls =>
    match (if ls then tryTitle s else none) with
    | some g0 => some g0
    | none =>
      match s with
      | [] => none
      | c :: cs => titleSearchAux cs (c == '\n')

/-- `REGEX_TITLE_OR_CHAPTER.search(s)`, returning `group(0)` when a match
exists. -/
def titleSearch (s : List Char) : Option (List Char) :=
  titleSearchAux s true

/-- `re.search(r"\d+", s)`: the first maximal digit run. -/
def firstNumber : List Char → Option (List Char)
  | [] => none
  | c :: cs => if c.isDigit then some (c :: cs.takeWhile Char.isDigit) else firstNumber cs

/-! ## The structural analyzer (`analyze_law_structure`) -/

/-- The Python section metadata stores `page_start` as either the int `1`
(preamble) or the string `"N/A"` (articles). -/
inductive PageStart where
  | int (n : Nat)
  | str (s : String)
deriving DecidableEq, Repr

/-- Metadata dict of one emitted section. -/
structure LawSectionMeta where
  chunk_type : String
  chapter : String
  article : String
  page_start : PageStart
deriving DecidableEq, Repr

/-- One element of the `section_data` list built by the analyzer. -/
structure LawSection where
  text : String
  metadata : LawSectionMeta
deriving DecidableEq, Repr

/-- Step 3a of the analyzer: advance `i` until a token is a non-`None`,
non-blank string on which `REGEX_ARTICLE.search` succeeds; return that marker
and the remaining tokens (Python leaves `i` just past the marker). -/
def findMarker : List (Option (List Char)) → Option (List Char) × List (Option (List Char))
  | [] => (none, [])
  | t :: rest =>
    match t with
    | some s => if stripL s ≠ [] ∧ REGEX_ARTICLE_search s then (some s, rest) else findMarker rest
    | none => findMarker rest

/-- Step 3b of the analyzer: accumulate `content_parts` until the next token
matching `REGEX_ARTICLE` (not consumed) or the end of the list.  The Python
code calls `REGEX_ARTICLE.search(candidate)` without a `None` guard here, so a
`None` group token raises `TypeError`; that is modeled as `none`. -/
def collectContent : List (Option (List Char)) → Option (List (List Char) × List (Option (List Char)))
  | [] => some ([], [])
  | t :: rest =>
    match t with
    | none => none
    | some s =>
      if REGEX_ARTICLE_search s then some ([], t :: rest)
      else
        match collectContent rest with
        | none => none
        | some (ps, r) => some (if s ≠ [] ∧ stripL s ≠ [] then s :: ps else ps, r)

/-- Chapter-state update: `REGEX_TITLE_OR_CHAPTER.search` on the marker, then
on the content; `group(0).strip()` replaces the running chapter on a hit. -/
def updateChapter (current_chapter : String) (marker content : List Char) : String :=
  match titleSearch marker with
  | some g0 => String.mk (stripL g0)
  | none =>
    match titleSearch content with
    | some g0 => String.mk (stripL g0)
    | none => current_chapter

/-- Article identifier: `f"Artigo {m.group(0)}"` for the first digit run of the
marker, or the stripped marker when it has no digits. -/
def extractArticle (marker : List Char) : String :=
  match firstNumber marker with
  | some num => "Artigo " ++ String.mk num
  | none => String.mk (stripL marker)

/-- The marker/content pairing loop of `analyze_law_structure` (step 3),
threading the running `current_chapter`.  The result `none` models a raised
`TypeError` (see `collectContent`); `fuel` bounds the number of outer
iterations — each one that recurses consumes at least the marker token, so
`tokens.length + 1` always suffices and the fuel-zero case is unreachable from
`analyze_law_structure`.  A marker whose accumulated content is blank is
skipped (the code logs "Pulando" and `continue`s). -/
def walkPairs : Nat → List (Option (List Char)) → String → Option (List LawSection)
  | 0, _, _ => none
  | fuel + 1, toks, current_chapter =>
    match findMarker toks with
    | (none, _) => some []
    | (some marker, toks1) =>
      match collectContent toks1 with
      | none => none
      | some (parts, toks2) =>
        let article_content := List.intercalate ['\n'] parts
        if stripL article_content = [] then
          walkPairs fuel toks2 current_chapter
        else
          let chap := updateChapter current_chapter marker article_content
          let current_article := extractArticle marker
          let full_section_text := stripL marker ++ '\n' :: stripL article_content
          let sect : LawSection :=
            ⟨String.mk (stripL full_section_text),
              ⟨"LEGAL_ARTICLE", chap, current_article, PageStart.str "N/A"⟩⟩
          match walkPairs fuel toks2 chap with
          | none => none
          | some rest => some (sect :: rest)

/-- `analyze_law_structure(file_type, document_text)` from
`app/services/document_analyzer.py`.  Joins the text units with newlines,
splits on `REGEX_ARTICLE`, emits a PREAMBULO section for a non-blank leading
piece, then runs the marker/content pairing loop.  The `file_type` argument is
kept only for call compatibility, exactly as in the source. -/
def analyze_law_structure (file_type : String) (document_text : List String) :
    Option (List LawSection) :=
  let current_chapter := "Preâmbulo ou Seção Não Identificada"
  let full_text := pyJoin "\n" document_text
  let sections := pySplit full_text.data
  match sections with
  | some s0 :: rest =>
    if stripL s0 ≠ [] then
      match walkPairs (rest.length + 1) rest current_chapter with
      | none => none
      | some secs =>
        some (⟨String.mk s0, ⟨"PREAMBULO", current_chapter, "N/A", PageStart.int 1⟩⟩ :: secs)
    else
      walkPairs (sections.length + 1) sections current_chapter
  | _ => walkPairs (sections.length + 1) sections current_chapter

/-! ## The content refiner (`refine_extracted_content`, `app/services/ocr_processor.py`)

`describe_visual_element` performs an external multimodal LLM call (including
its own internal error fallback, which still returns a string); it is passed as
an oracle `describe image context page_number`. -/

/-- Placeholder text for pages where extraction produced nothing. -/
def CONTENT_MISSING_TEXTUAL : String := "CONTENT_MISSING_TEXTUAL"

/-- Heuristic threshold: native text shorter than this routes to the multimodal
path. -/
def MIN_TEXT_FOR_HEURISTIC : Nat := 100

/-- One element of the `consolidated_data` list produced by the refiner. -/
structure RefinedItem where
  page_number : Nat
  content_type : String
  text : String
  metadata_source : String
deriving DecidableEq, Repr

/-- Case 1 of the refiner (non-PDF or image-less):
`for i, text in enumerate(document_text): if text.strip() or i < 1: append(...)`.
The counter `i` is the Python enumeration index. -/
def simpleRefineLoop (file_type : String) : Nat → List String → List RefinedItem
  | _, [] => []
  | i, text :: rest =>
    let tail := simpleRefineLoop file_type (i + 1) rest
    if stripL text.data ≠ [] ∨ i < 1 then
      ⟨i + 1, "TEXT", text, pyUpper file_type ++ "_LOADER"⟩ :: tail
    else tail

/-- Case 2 of the refiner (PDF): `for i in range(min(len(text), len(images)))`,
modeled as simultaneous recursion over both lists (which stops at the shorter
one), with `i` the Python loop index. -/
def pdfRefineLoop {Img : Type} (describe : Img → String → Nat → String) :
    Nat → List String → List Img → List RefinedItem
  | _, [], _ => []
  | _, _ :: _, [] => []
  | i, text_page :: ts, image_data :: irest =>
    let page_number := i + 1
    let item : RefinedItem :=
      if text_page = CONTENT_MISSING_TEXTUAL ∨ (stripL text_page.data).length < MIN_TEXT_FOR_HEURISTIC then
        ⟨page_number, "VISUAL_DESCRIPTION", describe image_data text_page page_number, "LLM_MULTIMODAL"⟩
      else
        ⟨page_number, "TEXT", text_page, "PDFPLUMBER"⟩
    item :: pdfRefineLoop describe (i + 1) ts irest

/-- `refine_extracted_content(document_text, document_images, file_type)`. -/
def refine_extracted_content {Img : Type} (describe : Img → String → Nat → String)
    (document_text : List String) (document_images : List Img) (file_type : String) :
    List RefinedItem :=
  if file_type ≠ ".pdf" ∨ document_images.isEmpty then
    simpleRefineLoop file_type 0 document_text
  else
    pdfRefineLoop describe 0 document_text document_images

/-! ## The document loader (`app/services/document_loader.py`)

Pages are abstract; `extract_simple` models `page.extract_text(layout=False)`
(the heuristic pass), `extract_final` models
`page.extract_text(x_tolerance=2, y_tolerance=2, layout=False)` (the final
pass), `ocrPage` models `run_traditional_ocr(page.to_image(...).original)` —
whose result PyTesseract-side is already `.strip()`ped by
`run_traditional_ocr` — and `render` models `page.to_image().original`.
A `None` return of `extract_text` is modeled as the empty string (both are
falsy in the `if text:` guards). -/

/-- `_has_sufficient_native_text`: sum the stripped native-text lengths of the
first `min(3, page count)` pages and compare against the threshold 100
(`MIN_CHARS_THRESHOLD`).  Returns `true` when the document has enough native
text (i.e. is NOT considered scanned). -/
def _has_sufficient_native_text {Page : Type} (extract_simple : Page → String)
    (pages : List Page) : Bool :=
  let pages_to_check := min 3 pages.length
  let total_text_length :=
    (((pages.take pages_to_check).map fun p =>
      let text := extract_simple p
      if text ≠ "" then (stripL text.data).length else 0)).sum
  decide (100 ≤ total_text_length)

/-- `orchestrate_pre_ocr`: OCR every page; a page whose OCR output is blank
contributes the `CONTENT_MISSING_TEXTUAL` placeholder. -/
def orchestrate_pre_ocr {Page : Type} (ocrPage : Page → String) (pages : List Page) :
    List String :=
  pages.map fun p =>
    let ocr_result := ocrPage p
    if stripL ocr_result.data ≠ [] then ocr_result else CONTENT_MISSING_TEXTUAL

/-- `load_pdf_file`: decide once per document whether it is scanned; if so use
the traditional-OCR pass for the text channel (falling back to native
extraction only if that pass returned nothing at all), otherwise extract
native text per page (with the placeholder for blank pages).  Raster images
are always extracted. -/
def load_pdf_file {Page Img : Type} (extract_simple extract_final : Page → String)
    (ocrPage : Page → String) (render : Page → Img) (pages : List Page) :
    List String × List Img :=
  let texto_por_pagina : List String :=
    if _has_sufficient_native_text extract_simple pages = false then
      orchestrate_pre_ocr ocrPage pages
    else []
  let texto_final : List String :=
    if texto_por_pagina = [] then
      pages.map fun page =>
        let text := extract_final page
        if text ≠ "" ∧ stripL text.data ≠ [] then text else CONTENT_MISSING_TEXTUAL
    else texto_por_pagina
  let imagens_para_analise := pages.map render
  (texto_final, imagens_para_analise)

/-! ## Google Drive folder listing (`app/services/google_drive_manager.py`)

The Drive service is modeled as a store of items; `files().list` filters the
store by the query and returns pages of `pageSize` items with a continuation
token. -/

/-- A file resource as known to the Drive service. -/
structure DriveFile where
  id : String
  name : String
  mimeType : String
  parents : List String
  trashed : Bool
deriving DecidableEq, Repr

/-- `DRIVE_MIME_TYPES['folder']`. -/
def folderMimeType : String := "application/vnd.google-apps.folder"

/-- Semantics of the query string actually built by `list_files_in_folder`:
`f"'{folder_id}' in parents and trashed=false"`.  The variant that would also
exclude folders (`... and mimeType != '...folder'`) exists in the source only
as a commented-out line. -/
def listQuery (folder_id : String) (f : DriveFile) : Bool :=
  folder_id ∈ f.parents && !f.trashed

/-- The projection requested via `fields="files(id, name, mimeType)"`. -/
structure DriveEntry where
  id : String
  name : String
  mimeType : String
deriving DecidableEq, Repr

/-- One `service.files().list(q, pageSize, pageToken)` call: the store filtered
by the query, then the page at `pageToken`, plus the next token when more
results remain. -/
def drive_files_list (store : List DriveFile) (q : DriveFile → Bool)
    (pageSize : Nat) (pageToken : Nat) : List DriveEntry × Option Nat :=
  let matching := (store.filter q).map fun f => (⟨f.id, f.name, f.mimeType⟩ : DriveEntry)
  let page := (matching.drop (pageToken * pageSize)).take pageSize
  let nextToken := if (pageToken + 1) * pageSize < matching.length then some (pageToken + 1) else none
  (page, nextToken)

/-- The `while True` pagination loop of `list_files_in_folder`.  `fuel` bounds
the number of pages; `store.length + 1` always suffices. -/
def listPagesLoop (store : List DriveFile) (q : DriveFile → Bool) :
    Nat → Nat → List DriveEntry → List DriveEntry
  | 0, _, acc => acc
  | fuel + 1, pageToken, acc =>
    let step := drive_files_list store q 100 pageToken
    let acc2 := acc ++ step.1
    match step.2 with
    | none => acc2
    | some t => listPagesLoop store q fuel t acc2

/-- `list_files_in_folder(user_id, folder_id)`: page through all results of the
query `'{folder_id}' in parents and trashed=false` with page size 100. -/
def list_files_in_folder (store : List DriveFile) (user_id folder_id : String) :
    List DriveEntry :=
  listPagesLoop store (listQuery folder_id) (store.length + 1) 0 []

/-! ## The fixed-width sub-chunk splitter (`app/services/vector_db_manager.py`)

`simple_text_splitter` is the local helper defined inside
`run_ingestion_pipeline`:
`[text[i:i + max_len] for i in range(0, len(text), max_len)]`, called with its
default `max_len = 750`. -/

/-- Slicing loop of `simple_text_splitter`; `fuel` bounds the number of slices
(`length + 1` always suffices for `max_len ≥ 1`; Python would raise on a zero
step, which never occurs — the function is only called with the default). -/
def splitChunksAux : Nat → List Char → Nat → List (List Char)
  | 0, _, _ => []
  | fuel + 1, l, k => if l = [] then [] else l.take k :: splitChunksAux fuel (l.drop k) k

/-- `simple_text_splitter(text, max_len)`. -/
def simple_text_splitter (text : String) (max_len : Nat) : List String :=
  (splitChunksAux (text.data.length + 1) text.data max_len).map String.mk

/-! ## The per-file ingestion coordinator (`app/routers/ingestion.py`)

`_process_single_file_for_ingestion` drives one file through the pipeline.
External effects (Drive download, the format loaders, the multimodal call, the
chunking/embedding/persistence pipeline, `uuid4()`) are oracles; a `none` from
an oracle models the corresponding Python failure (download returning `None`,
a loader raising).  Each stage invocation is recorded, in source order, in a
trace. -/

/-- Pipeline stages of the per-file coordinator, in the roles the spec names. -/
inductive Stage where
  | download
  | load
  | analyze
  | refine
  | chunkEmbedPersist
deriving DecidableEq, Repr

/-- One element of `refined_sections_for_chunking` (ingestion.py lines
122–131): rebuilt from a structural section, with
`metadata.get("page_start", 1)` and `metadata.get("chunk_type", "TEXT_BLOCK")`
— both keys are always present on analyzer output, so the defaults never
apply. -/
structure ChunkSection where
  page_number : PageStart
  content_type : String
  text : String
  metadata_source : String
  article : String
  chapter : String
deriving DecidableEq, Repr

/-- The list comprehension building `refined_sections_for_chunking` from the
analyzer's `structured_sections`. -/
def remapForChunking (ss : List LawSection) : List ChunkSection :=
  ss.map fun s =>
    ⟨s.metadata.page_start, s.metadata.chunk_type, s.text, "ANALYSIS_STRUCTURED",
      s.metadata.article, s.metadata.chapter⟩

/-- External collaborators of the per-file coordinator. -/
structure CoordOracle (Img : Type) where
  download : Option String
  load : String → Option (List String × List Img × String)
  describe : Img → String → Nat → String
  runPipeline : List ChunkSection → String → String → Bool
  uuid : String

/-- `_process_single_file_for_ingestion(user_id, file_id, filename)`.  Returns
(success flag, trace of stage invocations in source order, the value handed to
`run_ingestion_pipeline` when reached).  Failure paths mirror the source: a
failed download returns `False` immediately; an exception in a later stage is
caught and converted to `False`. -/
def processSingleFile {Img : Type} (O : CoordOracle Img) (file_id filename : String) :
    Bool × List Stage × Option (List ChunkSection) :=
  match O.download with
  | none => (false, [Stage.download], none)
  | some _download_path =>
    match O.load _download_path with
    | none => (false, [Stage.download, Stage.load], none)
    | some (document_content, document_images, file_type) =>
      match analyze_law_structure file_type document_content with
      | none => (false, [Stage.download, Stage.load, Stage.analyze], none)
      | some structured_sections =>
        let _refined_data_list :=
          refine_extracted_content O.describe document_content document_images file_type
        let refined_sections_for_chunking := remapForChunking structured_sections
        let success := O.runPipeline refined_sections_for_chunking O.uuid filename
        (success,
          [Stage.download, Stage.load, Stage.analyze, Stage.refine, Stage.chunkEmbedPersist],
          some refined_sections_for_chunking)

/-! ## Concrete instantiations used by the counterexample / evaluation theorems -/

/-- Coordinator oracle for a one-unit text file; every external stage
succeeds. -/
def coordOracleTxt : CoordOracle Unit :=
  ⟨some "/tmp/ingest/f.txt", fun _ => some (["hello"], [], ".txt"),
    fun _ _ _ => "", fun _ _ _ => true, "uuid-1"⟩

/-- A Drive store: folder `F` directly contains a (non-trashed) subfolder, a
trashed document, and a regular PDF. -/
def driveStoreWithSubfolder : List DriveFile :=
  [⟨"S", "subpasta", folderMimeType, ["F"], false⟩,
   ⟨"T", "lixo.pdf", "application/pdf", ["F"], true⟩,
   ⟨"D", "doc.pdf", "application/pdf", ["F"], false⟩]

/-! ## Supporting lemmas -/

/-- String append acts as list append on the underlying codepoints. -/
theorem strData_append (a b : String) : (a ++ b).data = a.data ++ b.data := by
  cases a
  cases b
  rfl

/-- Taking `min n length` elements is the same as taking `n`. -/
theorem take_min_self {α : Type _} (l : List α) (n : Nat) :
    l.take (min n l.length) = l.take n := by
  induction l generalizing n with
  | nil => simp
  | cons a t ih =>
    cases n with
    | zero => simp
    | succ m => simp [Nat.succ_min_succ, ih]

/-- Folding string concatenation over chunks rebuilt with `String.mk`
concatenates the underlying lists. -/
theorem foldr_append_data (chunks : List (List Char)) :
    (((chunks.map String.mk).foldr (fun a b => a ++ b) "").data) = chunks.flatten := by
  induction chunks with
  | nil => rfl
  | cons c cs ih => simp [List.foldr, strData_append, ih]

/-- The slicing loop of `simple_text_splitter`: with positive width and enough
fuel, every slice is at most `k` long and the slices concatenate back to the
input. -/
theorem splitChunksAux_spec (k : Nat) (hk : 0 < k) :
    ∀ (fuel : Nat) (l : List Char), l.length < fuel →
      (∀ c ∈ splitChunksAux fuel l k, c.length ≤ k) ∧
      (splitChunksAux fuel l k).flatten = l := by
  intro fuel
  induction fuel with
  | zero => intro l h; exact absurd h (Nat.not_lt_zero _)
  | succ n ih =>
    intro l h
    by_cases hl : l = []
    · subst hl; simp [splitChunksAux]
    · have hlen : 0 < l.length := List.length_pos.mpr hl
      have hrec := ih (l.drop k) (by simp; omega)
      constructor
      · intro c hc
        simp only [splitChunksAux, if_neg hl, List.mem_cons] at hc
        rcases hc with hc | hc
        · subst hc; simp [List.length_take]
        · exact hrec.1 c hc
      · simp only [splitChunksAux, if_neg hl, List.flatten]
        rw [hrec.2]
        exact List.take_append_drop k l

/-! ## Claim C10 -/

/-- Claim C10 (confirmed): for every section text, `simple_text_splitter` at
its fixed maximum of 750 characters returns sub-chunks each of length at most
750, whose in-order concatenation is exactly the original text. -/
theorem c10_splitter_bounds_concat (text : String) :
    (∀ c ∈ simple_text_splitter text 750, c.length ≤ 750) ∧
    (simple_text_splitter text 750).foldr (fun a b => a ++ b) "" = text := by
  have h := splitChunksAux_spec 750 (by omega) (text.data.length + 1) text.data (by omega)
  constructor
  · intro c hc
    simp only [simple_text_splitter, List.mem_map] at hc
    rcases hc with ⟨l, hl, rfl⟩
    simpa [String.length] using h.1 l hl
  · apply String.ext
    rw [simple_text_splitter, foldr_append_data, h.2]

/-- Witness for C10 at a concrete input. -/
theorem c10_splitter_bounds_concat_witness :
    (simple_text_splitter "abc" 750).foldr (fun a b => a ++ b) "" = "abc" :=
  (c10_splitter_bounds_concat "abc").2

/-! ## Claim C5 -/

/-- The PDF refinement loop stops at the shorter of the two sequences. -/
theorem pdfRefineLoop_length {Img : Type} (describe : Img → String → Nat → String) :
    ∀ (dt : List String) (di : List Img) (n : Nat),
      (pdfRefineLoop describe n dt di).length = min dt.length di.length := by
  intro dt
  induction dt with
  | nil => intro di n; simp [pdfRefineLoop]
  | cons t ts ih =>
    intro di n
    cases di with
    | nil => simp [pdfRefineLoop]
    | cons img irest => simp [pdfRefineLoop, ih, Nat.succ_min_succ]

/-- Element `i` of the PDF refinement loop output, for a loop started at
counter `n`. -/
theorem pdfRefineLoop_getElem {Img : Type} (describe : Img → String → Nat → String) :
    ∀ (dt : List String) (di : List Img) (n i : Nat) (t : String) (img : Img),
      dt[i]? = some t → di[i]? = some img →
      (pdfRefineLoop describe n dt di)[i]? =
        some (if t = CONTENT_MISSING_TEXTUAL ∨ (stripL t.data).length < MIN_TEXT_FOR_HEURISTIC then
          ⟨n + i + 1, "VISUAL_DESCRIPTION", describe img t (n + i + 1), "LLM_MULTIMODAL"⟩
        else ⟨n + i + 1, "TEXT", t, "PDFPLUMBER"⟩) := by
  intro dt
  induction dt with
  | nil => intro di n i t img ht; simp at ht
  | cons t0 ts ih =>
    intro di n i t img ht himg
    cases di with
    | nil => simp at himg
    | cons img0 irest =>
      cases i with
      | zero =>
        simp only [List.getElem?_cons_zero, Option.some.injEq] at ht himg
        subst ht
        subst himg
        simp [pdfRefineLoop]
      | succ j =>
        simp only [List.getElem?_cons_succ] at ht himg
        have h := ih irest (n + 1) j t img ht himg
        have harith : n + 1 + j = n + (j + 1) := by omega
        simpa [pdfRefineLoop, harith] using h

/-- Claim C5 (confirmed): on the PDF refinement path (`file_type = ".pdf"`,
non-empty image list), `refine_extracted_content` pairs text units with images
index-aligned up to the shorter sequence length, and item `i` is a
VISUAL_DESCRIPTION exactly when text unit `i` is the missing-content
placeholder or its stripped length is below 100 characters; otherwise it is a
TEXT item carrying text unit `i` unchanged. -/
theorem c5_pdf_refine_classification {Img : Type} (describe : Img → String → Nat → String)
    (file_type : String) (document_text : List String) (document_images : List Img)
    (hft : file_type = ".pdf") (him : document_images ≠ []) :
    (refine_extracted_content describe document_text document_images file_type).length
      = min document_text.length document_images.length ∧
    ∀ (i : Nat) (t : String) (img : Img),
      document_text[i]? = some t → document_images[i]? = some img →
      (refine_extracted_content describe document_text document_images file_type)[i]? =
        some (if t = CONTENT_MISSING_TEXTUAL ∨ (stripL t.data).length < 100 then
          ⟨i + 1, "VISUAL_DESCRIPTION", describe img t (i + 1), "LLM_MULTIMODAL"⟩
        else ⟨i + 1, "TEXT", t, "PDFPLUMBER"⟩) := by
  subst hft
  have hcond : ¬((".pdf" : String) ≠ ".pdf" ∨ document_images.isEmpty) := by
    simp [List.isEmpty_iff, him]
  rw [refine_extracted_content, if_neg hcond]
  constructor
  · exact pdfRefineLoop_length describe document_text document_images 0
  · intro i t img ht himg
    have h := pdfRefineLoop_getElem describe document_text document_images 0 i t img ht himg
    simpa [MIN_TEXT_FOR_HEURISTIC] using h

/-- Witness for C5: a one-page PDF whose native text is short routes through
the multimodal path. -/
theorem c5_pdf_refine_classification_witness :
    (refine_extracted_content (fun _ : Unit => fun _ _ => "D") ["short"] [()] ".pdf")[0]? =
      some ⟨1, "VISUAL_DESCRIPTION", "D", "LLM_MULTIMODAL"⟩ := by
  have h := (c5_pdf_refine_classification (fun _ : Unit => fun _ _ => "D") ".pdf" ["short"] [()]
    rfl (by decide)).2 0 "short" () rfl rfl
  have hc : (("short" : String) = CONTENT_MISSING_TEXTUAL ∨ (stripL "short".data).length < 100) := by
    decide
  rw [if_pos hc] at h
  simpa using h

/-! ## Claim C7 -/

/-- The simple (non-PDF) refinement loop equals a filter over the enumerated
units: a unit survives iff its stripped text is non-empty or its index is the
loop's first. -/
theorem simpleRefineLoop_spec (file_type : String) :
    ∀ (dt : List String) (n : Nat),
      simpleRefineLoop file_type n dt =
        ((dt.enumFrom n).filter fun p => !(stripL p.2.data).isEmpty || p.1 == 0).map
          fun p => ⟨p.1 + 1, "TEXT", p.2, pyUpper file_type ++ "_LOADER"⟩ := by
  intro dt
  induction dt with
  | nil => intro n; simp [simpleRefineLoop]
  | cons t ts ih =>
    intro n
    by_cases h1 : stripL t.data = []
    · by_cases h2 : n = 0
      · subst h2
        simp [simpleRefineLoop, List.enumFrom, List.filter, h1, ih]
      · have hn : ¬(stripL t.data ≠ [] ∨ n < 1) := by
          push_neg
          exact ⟨h1, by omega⟩
        have hb : (!(stripL t.data).isEmpty || n == 0) = false := by
          simp [h1, h2]
        simp only [simpleRefineLoop, if_neg hn, List.enumFrom, List.filter, hb]
        exact ih (n + 1)
    · have hy : (stripL t.data ≠ [] ∨ n < 1) := Or.inl h1
      have hb : (!(stripL t.data).isEmpty || n == 0) = true := by
        simp [List.isEmpty_iff, h1]
      simp only [simpleRefineLoop, if_pos hy, List.enumFrom, List.filter, hb, List.map]
      rw [ih (n + 1)]

/-- Claim C7 (corrected): on the non-PDF / image-less path the refiner does NOT
keep one item per unit — a unit at index ≥ 1 whose text is blank is dropped.
At `["a", " "]` the output has a single item. -/
theorem c7_passthrough_counterexample :
    refine_extracted_content (fun _ : Unit => fun _ _ => "") ["a", " "] ([] : List Unit) ".txt" =
      [⟨1, "TEXT", "a", ".TXT_LOADER"⟩] ∧
    (["a", " "] : List String).length = 2 := by
  decide

/-- Claim C7 as amended: on the non-PDF / image-less path the refiner returns
TEXT items, in input order and with texts unchanged, for exactly those units
that are non-blank or sit at index 0; blank units at later indices are
dropped. -/
theorem c7_passthrough_amended {Img : Type} (describe : Img → String → Nat → String)
    (document_text : List String) (document_images : List Img) (file_type : String)
    (h : file_type ≠ ".pdf" ∨ document_images = []) :
    refine_extracted_content describe document_text document_images file_type =
      ((document_text.enum).filter fun p => !(stripL p.2.data).isEmpty || p.1 == 0).map
        fun p => ⟨p.1 + 1, "TEXT", p.2, pyUpper file_type ++ "_LOADER"⟩ := by
  have hcond : (file_type ≠ ".pdf" ∨ document_images.isEmpty) := by
    rcases h with h | h
    · exact Or.inl h
    · exact Or.inr (by simp [h])
  rw [refine_extracted_content, if_pos hcond]
  exact simpleRefineLoop_spec file_type document_text 0

/-- Witness for C7 at a concrete non-PDF input. -/
theorem c7_passthrough_witness :
    refine_extracted_content (fun _ : Unit => fun _ _ => "") ["x"] ([] : List Unit) ".txt" =
      [⟨1, "TEXT", "x", ".TXT_LOADER"⟩] := by
  rw [c7_passthrough_amended (fun _ : Unit => fun _ _ => "") ["x"] [] ".txt" (Or.inr rfl)]
  decide

/-! ## Claim C9 -/

/-- The per-page contribution to the native-text sample: the `if text:` guard
is redundant for the sum, since a blank extraction strips to length 0. -/
theorem sample_guard_redundant {Page : Type} (extract_simple : Page → String) :
    (fun p =>
      let text := extract_simple p
      if text ≠ "" then (stripL text.data).length else 0) =
    (fun p : Page => (stripL (extract_simple p).data).length) := by
  funext p
  by_cases h : extract_simple p = ""
  · simp only [h]
    rfl
  · simp [h]

/-- Claim C9 (confirmed): the scanned-document decision samples the first
`min(3, page count)` pages once per document and classifies the document as
scanned exactly when the summed stripped native-text length is below 100; a
scanned document's text channel comes from the traditional OCR pass over every
page, a non-scanned one from native per-page extraction. -/
theorem c9_scanned_decision {Page Img : Type} (extract_simple extract_final ocrPage : Page → String)
    (render : Page → Img) (pages : List Page) :
    (_has_sufficient_native_text extract_simple pages = false ↔
      (((pages.take 3).map fun p => (stripL (extract_simple p).data).length).sum) < 100) ∧
    (_has_sufficient_native_text extract_simple pages = false → pages ≠ [] →
      (load_pdf_file extract_simple extract_final ocrPage render pages).1 =
        orchestrate_pre_ocr ocrPage pages) ∧
    (_has_sufficient_native_text extract_simple pages = true →
      (load_pdf_file extract_simple extract_final ocrPage render pages).1 =
        pages.map fun page =>
          if extract_final page ≠ "" ∧ stripL (extract_final page).data ≠ [] then extract_final page
          else CONTENT_MISSING_TEXTUAL) := by
  refine ⟨?_, ?_, ?_⟩
  · rw [_has_sufficient_native_text]
    simp only [sample_guard_redundant, take_min_self]
    rw [decide_eq_false_iff_not]
    omega
  · intro h hne
    have hocr : orchestrate_pre_ocr ocrPage pages ≠ [] := by
      rw [orchestrate_pre_ocr]
      simpa using hne
    simp only [load_pdf_file, h, if_true]
    rw [if_neg hocr]
  · intro h
    rw [load_pdf_file, h]
    simp

/-- Witness for C9: a one-page PDF with no native text is classified scanned
and its text channel is the OCR pass. -/
theorem c9_scanned_decision_witness :
    (load_pdf_file (fun _ : Nat => "") (fun _ => "native") (fun _ => "ocr text") (fun _ => ()) [0]).1 =
      orchestrate_pre_ocr (fun _ => "ocr text") [0] := by
  exact (c9_scanned_decision (fun _ : Nat => "") (fun _ => "native") (fun _ => "ocr text")
    (fun _ => ()) [0]).2.1 (by decide) (by decide)

/-! ## Claim C8 -/

/-- Every section emitted by the marker/content pairing loop is a
LEGAL_ARTICLE: the loop has no other emission, and in particular a final
marker without content is skipped outright. -/
theorem walkPairs_chunk_types :
    ∀ (fuel : Nat) (toks : List (Option (List Char))) (chap : String) (secs : List LawSection),
      walkPairs fuel toks chap = some secs →
      ∀ s ∈ secs, s.metadata.chunk_type = "LEGAL_ARTICLE" := by
  intro fuel
  induction fuel with
  | zero =>
    intro toks chap secs h
    simp [walkPairs] at h
  | succ n ih =>
    intro toks chap secs h
    rw [walkPairs] at h
    split at h
    · simp only [Option.some.injEq] at h
      subst h
      intro s hs
      simp at hs
    · split at h
      · simp at h
      · dsimp only at h
        split at h
        · exact ih _ _ _ h
        · split at h
          · simp at h
          · rename_i rest hw
            simp only [Option.some.injEq] at h
            subst h
            intro s hs
            rcases List.mem_cons.mp hs with hs | hs
            · subst hs
              rfl
            · exact ih _ _ _ hw s hs

/-- Claim C8 (corrected, counterexample): a token walk that finds a final
article marker with no following content emits nothing at all — the marker is
dropped (the code logs a warning and `continue`s), not turned into a RESIDUO
section. -/
theorem c8_residuo_counterexample :
    REGEX_ARTICLE_search "Art. 1 extra".data = true ∧
    findMarker [some "Art. 1 extra".data] = (some "Art. 1 extra".data, []) ∧
    walkPairs 2 [some "Art. 1 extra".data] "Preâmbulo ou Seção Não Identificada" = some [] := by
  decide

/-- Claim C8 as amended: a leftover final marker with no following content is
skipped with a logged warning and nothing is emitted for it; the analyzer never
produces a RESIDUO section (its only section kinds are PREAMBULO and
LEGAL_ARTICLE). -/
theorem c8_residuo_amended (file_type : String) (document_text : List String)
    (secs : List LawSection)
    (h : analyze_law_structure file_type document_text = some secs) :
    ∀ s ∈ secs, s.metadata.chunk_type ≠ "RESIDUO" := by
  have hall : ∀ s ∈ secs,
      s.metadata.chunk_type = "PREAMBULO" ∨ s.metadata.chunk_type = "LEGAL_ARTICLE" := by
    rw [analyze_law_structure] at h
    split at h
    · split at h
      · split at h
        · simp at h
        · rename_i inner hw
          simp only [Option.some.injEq] at h
          subst h
          intro s hs
          rcases List.mem_cons.mp hs with hs | hs
          · subst hs
            exact Or.inl rfl
          · exact Or.inr (walkPairs_chunk_types _ _ _ _ hw s hs)
      · intro s hs
        exact Or.inr (walkPairs_chunk_types _ _ _ _ h s hs)
    · intro s hs
      exact Or.inr (walkPairs_chunk_types _ _ _ _ h s hs)
  intro s hs
  rcases hall s hs with h1 | h1 <;> rw [h1] <;> decide

/-- Witness for C8 at a concrete input. -/
theorem c8_residuo_witness :
    ((⟨"hello", ⟨"PREAMBULO", "Preâmbulo ou Seção Não Identificada", "N/A",
        PageStart.int 1⟩⟩ : LawSection)).metadata.chunk_type ≠ "RESIDUO" := by
  exact c8_residuo_amended ".txt" ["hello"]
    [⟨"hello", ⟨"PREAMBULO", "Preâmbulo ou Seção Não Identificada", "N/A", PageStart.int 1⟩⟩]
    (by decide) _ (by decide)

/-! ## Claim C3 -/

/-- When the marker scan finds nothing, the pairing loop stops immediately with
an empty section list (any nonzero fuel). -/
theorem walkPairs_no_marker (fuel : Nat) (hf : fuel ≠ 0) (toks : List (Option (List Char)))
    (chap : String) (h : (findMarker toks).1 = none) :
    walkPairs fuel toks chap = some [] := by
  cases fuel with
  | zero => exact absurd rfl hf
  | succ n =>
    rw [walkPairs]
    rcases hfm : findMarker toks with ⟨m, r⟩
    rw [hfm] at h
    simp only at h
    subst h
    rfl

/-- Claim C3 (corrected, counterexample): on an input without any article
marker the analyzer returns a single section spanning the whole buffer, but its
`chunk_type` is PREAMBULO, not TEXT_BLOCK. -/
theorem c3_fallback_counterexample :
    analyze_law_structure ".txt" ["hello world, just prose"] =
      some [⟨"hello world, just prose",
        ⟨"PREAMBULO", "Preâmbulo ou Seção Não Identificada", "N/A", PageStart.int 1⟩⟩] ∧
    "PREAMBULO" ≠ "TEXT_BLOCK" := by
  decide

/-- Claim C3 as amended: when the article pattern matches nowhere in the joined
buffer, the analyzer returns exactly one section — labeled PREAMBULO — whose
text is the entire buffer, provided the buffer is not blank; a blank buffer
yields the empty list. -/
theorem c3_fallback_amended (file_type : String) (document_text : List String)
    (h : REGEX_ARTICLE_search (pyJoin "\n" document_text).data = false) :
    analyze_law_structure file_type document_text =
      some (if stripL (pyJoin "\n" document_text).data = [] then []
        else [⟨pyJoin "\n" document_text,
          ⟨"PREAMBULO", "Preâmbulo ou Seção Não Identificada", "N/A", PageStart.int 1⟩⟩]) := by
  have hn : findSplit (pyJoin "\n" document_text).data true = none := by
    rcases hfs : findSplit (pyJoin "\n" document_text).data true with _ | v
    · rfl
    · rw [REGEX_ARTICLE_search, hfs] at h
      simp at h
  have hsplit : pySplit (pyJoin "\n" document_text).data
      = [some (pyJoin "\n" document_text).data] := by
    rw [pySplit, pySplitAux, hn]
  rw [analyze_law_structure]
  rw [hsplit]
  dsimp only
  by_cases hs : stripL (pyJoin "\n" document_text).data = []
  · rw [if_neg (not_not_intro hs), if_pos hs]
    apply walkPairs_no_marker _ (by simp) _ _
    have hguard : ¬(stripL (pyJoin "\n" document_text).data ≠ [] ∧
        REGEX_ARTICLE_search (pyJoin "\n" document_text).data = true) := fun hc => hc.1 hs
    simp only [findMarker, if_neg hguard]
  · rw [if_pos hs, if_neg hs]
    have hw : walkPairs (([] : List (Option (List Char))).length + 1) []
        "Preâmbulo ou Seção Não Identificada" = some [] :=
      walkPairs_no_marker _ (by simp) _ _ rfl
    rw [hw]

/-- Witness for C3 at a concrete marker-free input. -/
theorem c3_fallback_witness :
    analyze_law_structure ".md" ["plain prose only"] =
      some [⟨"plain prose only",
        ⟨"PREAMBULO", "Preâmbulo ou Seção Não Identificada", "N/A", PageStart.int 1⟩⟩] := by
  rw [c3_fallback_amended ".md" ["plain prose only"] (by decide)]
  decide

/-! ## Claim C1 -/

/-- Claim C1 (code_bug): on the spec's example input the analyzer returns a
single PREAMBULO section and loses both articles entirely — `re.split` with
capturing groups keeps only the group texts (`"Art."`, `". "`), which never
re-match `REGEX_ARTICLE`, so the marker-pairing loop finds no marker. -/
theorem c1_example_scenario_code_eval :
    analyze_law_structure ".pdf"
        ["Preamble text.\nArt. 1. Do something.\nArt. 2. Do another thing."] =
      some [⟨"Preamble text.\n",
        ⟨"PREAMBULO", "Preâmbulo ou Seção Não Identificada", "N/A", PageStart.int 1⟩⟩] ∧
    (analyze_law_structure ".pdf"
        ["Preamble text.\nArt. 1. Do something.\nArt. 2. Do another thing."]).map
        List.length = some 1 := by
  decide

/-! ## Claim C4 -/

/-- Claim C4 (code_bug): an input on which the article pattern matches (and
which has no preamble text) makes the analyzer return the empty list — no
sections and no article identifiers at all, because the split destroys the
marker lines. -/
theorem c4_marker_present_code_eval :
    REGEX_ARTICLE_search (pyJoin "\n" ["Art. 1 some long content here"]).data = true ∧
    analyze_law_structure ".txt" ["Art. 1 some long content here"] = some [] := by
  decide

/-! ## Claim C2 -/

/-- Claim C2 (corrected, counterexample): on a successful run the coordinator's
stage order is download, load, ANALYZE, REFINE, chunk/embed/persist — the
Analyzer runs before the Refiner, not after it as the claim states. -/
theorem c2_stage_order_counterexample :
    (processSingleFile coordOracleTxt "fid" "f.txt").2.1 =
      [Stage.download, Stage.load, Stage.analyze, Stage.refine, Stage.chunkEmbedPersist] ∧
    [Stage.download, Stage.load, Stage.analyze, Stage.refine, Stage.chunkEmbedPersist] ≠
      [Stage.download, Stage.load, Stage.refine, Stage.analyze, Stage.chunkEmbedPersist] := by
  decide

/-- Claim C2 as amended: for every file whose download, load and analysis
succeed, the stages run in the order Loader, Analyzer, Refiner,
Chunking/Embedding/persistence, and the Chunking stage consumes the sections
rebuilt from the ANALYZER's output (`refined_sections_for_chunking`); the
Refiner's output is computed but not consumed by the chunking stage. -/
theorem c2_stage_order_amended {Img : Type} (O : CoordOracle Img)
    (file_id filename path : String) (document_content : List String)
    (document_images : List Img) (file_type : String)
    (structured_sections : List LawSection)
    (h1 : O.download = some path)
    (h2 : O.load path = some (document_content, document_images, file_type))
    (h3 : analyze_law_structure file_type document_content = some structured_sections) :
    processSingleFile O file_id filename =
      (O.runPipeline (remapForChunking structured_sections) O.uuid filename,
       [Stage.download, Stage.load, Stage.analyze, Stage.refine, Stage.chunkEmbedPersist],
       some (remapForChunking structured_sections)) := by
  rw [processSingleFile, h1]
  dsimp only
  rw [h2]
  dsimp only
  rw [h3]

/-- Witness for C2 at the concrete text-file oracle. -/
theorem c2_stage_order_witness :
    processSingleFile coordOracleTxt "fid" "f.txt" =
      (true, [Stage.download, Stage.load, Stage.analyze, Stage.refine, Stage.chunkEmbedPersist],
       some [⟨PageStart.int 1, "PREAMBULO", "hello", "ANALYSIS_STRUCTURED", "N/A",
         "Preâmbulo ou Seção Não Identificada"⟩]) := by
  rw [c2_stage_order_amended coordOracleTxt "fid" "f.txt" "/tmp/ingest/f.txt" ["hello"] []
    ".txt" [⟨"hello", ⟨"PREAMBULO", "Preâmbulo ou Seção Não Identificada", "N/A",
      PageStart.int 1⟩⟩] rfl rfl (by decide)]
  decide

/-! ## Claim C6 -/

/-- Claim C6 (code_bug): listing the jobs of folder `F` returns its (non-
trashed) SUBFOLDER child alongside the regular file — the query string omits
the `mimeType != folder` condition (it survives only as a commented-out line),
contradicting the function's own docstring, which promises subfolders are
excluded.  Trashed children are excluded as promised. -/
theorem c6_folder_listing_code_eval :
    list_files_in_folder driveStoreWithSubfolder "user-1" "F" =
      [⟨"S", "subpasta", folderMimeType⟩, ⟨"D", "doc.pdf", "application/pdf"⟩] ∧
    (⟨"S", "subpasta", folderMimeType⟩ : DriveEntry).mimeType = folderMimeType := by
  decide
